import Mathlib

/-!
# EthioStreetFix: the messaging service worker

A shallow embedding of `web/firebase-messaging-sw.js`: the `push` listener
and the `notificationclick` listener.

JavaScript values are embedded as the type `JSVal`.  The two listeners are
embedded as functions that return the ordered list of platform calls they
make (`Call`) together with the exception, if any, that escapes the listener.
The platform itself (what `event.data.json()` returns or throws, what
`event.data.text()` returns, what `clients.matchAll` resolves to) is an input
of the embedding.
-/

namespace ServiceWorker

/-! ## JavaScript values -/

/-- A JavaScript number: `NaN`, an infinity, or the finite double
`(-1)^neg * mant * 2^exp` (so both zeros are `fin _ 0 _`). -/
inductive JSNum where
  | nan
  | inf (neg : Bool)
  | fin (neg : Bool) (mant : Nat) (exp : Int)
  deriving DecidableEq, Repr

/-- JavaScript values that the listeners can see: `undefined` and whatever
`JSON.parse` can build.  An object is the ordered list of its own properties. -/
inductive JSVal where
  | undefined
  | null
  | bool (b : Bool)
  | num (n : JSNum)
  | str (s : String)
  | arr (items : List JSVal)
  | obj (fields : List (String × JSVal))
  deriving Repr

/-- The exceptions of the embedding. -/
inductive JSError where
  | syntaxError
  | typeError
  deriving DecidableEq, Repr

/-- The abstract operation `ToBoolean` on numbers: `NaN`, `+0` and `-0` are falsy. -/
def JSNum.toBoolean : JSNum → Bool
  | .nan => false
  | .inf _ => true
  | .fin _ mant _ => mant != 0

/-- The abstract operation `ToBoolean`. -/
def JSVal.toBoolean : JSVal → Bool
  | .undefined => false
  | .null => false
  | .bool b => b
  | .num n => n.toBoolean
  | .str s => s != ""
  | .arr _ => true
  | .obj _ => true

/-- Own-property lookup in the property list of an object. -/
def lookup (key : String) : List (String × JSVal) → Option JSVal
  | [] => none
  | (k, v) :: rest => if k = key then some v else lookup key rest

/-- Property read `v.key`, for the three names the listeners read
(`notification`, `title`, `body`): none of them is defined on a built-in
prototype, so the read yields `undefined` on every primitive, on an array and
on an object without that own property, and throws `TypeError` on `undefined`
and `null`. -/
def getProp (v : JSVal) (key : String) : Except JSError JSVal :=
  match v with
  | .undefined => .error .typeError
  | .null => .error .typeError
  | .obj fields => .ok ((lookup key fields).getD .undefined)
  | _ => .ok .undefined

/-- The operator `a ?? b` on already evaluated operands (evaluating `b` has
no effect where the listeners use it). -/
def nullish (a b : JSVal) : JSVal :=
  match a with
  | .undefined => b
  | .null => b
  | _ => a

/-- The operator `a || b` on already evaluated operands (`b` is a literal
where the listeners use it). -/
def orElse (a b : JSVal) : JSVal :=
  if a.toBoolean then a else b

/-! ## The platform interface -/

/-- The second argument of `showNotification`: the literal `{ body, icon }`. -/
structure NotificationOptions where
  body : JSVal
  icon : JSVal

/-- The argument of `clients.matchAll`. -/
structure MatchAllOptions where
  type : String
  includeUncontrolled : Bool
  deriving DecidableEq, Repr

/-- An open window of the application. -/
structure WindowClient where
  id : Nat
  deriving DecidableEq, Repr

/-- The promises handed to `event.waitUntil`. -/
inductive Promise where
  | shown (title : JSVal) (options : NotificationOptions)
  | matchAllThen (query : MatchAllOptions)

/-- The platform calls of the two listeners. -/
inductive Call where
  | dataJson
  | dataText
  | showNotification (title : JSVal) (options : NotificationOptions)
  | waitUntil (p : Promise)
  | notificationClose
  | matchAll (query : MatchAllOptions)
  | focus (client : WindowClient)
  | openWindow (url : String)

/-- The run of a listener: its platform calls in order and the exception that
escaped it, if any. -/
structure Run where
  calls : List Call
  threw : Option JSError

/-- The payload `event.data` of a push event: what `json()` returns or throws
and what `text()` returns (`none` stands for `null` or `undefined`). -/
structure PushMessageData where
  json : Except JSError JSVal
  text : Option String

/-- A push event: `event.data` is `null` (here `none`) or a payload. -/
structure PushEvent where
  data : Option PushMessageData

/-! ## The push listener -/

/-- The `try`/`catch` statement of the push listener: the value bound to
`data` and the accessor calls made. -/
def decodeData (event : PushEvent) : JSVal × List Call :=
  match event.data with
  | none => (.obj [], [])
  | some d =>
    match d.json with
    | .ok v => (v, [.dataJson])
    | .error _ =>
      let text : JSVal :=
        match event.data with
        | none => .undefined
        | some d' => match d'.text with
          | none => .undefined
          | some s => .str s
      (.obj [("notification",
          .obj [("title", .str "Notification"), ("body", nullish text (.str ""))])],
        [.dataJson, .dataText])

/-- The expression `data.notification && data.notification.<key>`. -/
def notificationField (data : JSVal) (key : String) : Except JSError JSVal := do
  let n ← getProp data "notification"
  if n.toBoolean then
    let n' ← getProp data "notification"
    getProp n' key
  else
    pure n

/-- The expression bound to `title`. -/
def resolveTitle (data : JSVal) : Except JSError JSVal := do
  let t ← notificationField data "title"
  pure (orElse t (.str "Notification"))

/-- The expression of `options.body`. -/
def resolveBody (data : JSVal) : Except JSError JSVal := do
  let b ← notificationField data "body"
  pure (orElse b (.str ""))

/-- The `push` listener. -/
def pushHandler (event : PushEvent) : Run :=
  let (data, calls) := decodeData event
  match resolveTitle data with
  | .error e => ⟨calls, some e⟩
  | .ok title =>
    match resolveBody data with
    | .error e => ⟨calls, some e⟩
    | .ok body =>
      let options : NotificationOptions := ⟨body, .str "/favicon.png"⟩
      ⟨calls ++ [.showNotification title options, .waitUntil (.shown title options)], none⟩

/-! ## The notification-click listener -/

/-- The callback given to `then`: focus the first client or open a window. -/
def onClientList (clientList : List WindowClient) : List Call :=
  if h : clientList.length > 0 then
    let client := clientList.get ⟨0, h⟩
    [.focus client]
  else
    [.openWindow "/"]

/-- The `notificationclick` listener; `matched` is the list `clients.matchAll`
resolves to (`none` when its promise does not resolve, and the callback does
not run). -/
def clickHandler (matched : Option (List WindowClient)) : Run :=
  let query : MatchAllOptions := ⟨"window", true⟩
  let sync : List Call :=
    [.notificationClose, .matchAll query, .waitUntil (.matchAllThen query)]
  match matched with
  | none => ⟨sync, none⟩
  | some clientList => ⟨sync ++ onClientList clientList, none⟩

/-! ## Observations on a run -/

/-- The arguments of the `showNotification` calls of a run, in order. -/
def shownNotifications : List Call → List (JSVal × NotificationOptions)
  | [] => []
  | .showNotification t o :: rest => (t, o) :: shownNotifications rest
  | _ :: rest => shownNotifications rest

/-- The promises passed to `event.waitUntil`, in order. -/
def awaited : List Call → List Promise
  | [] => []
  | .waitUntil p :: rest => p :: awaited rest
  | _ :: rest => awaited rest

/-- The clients on which `focus` was called, in order. -/
def focused : List Call → List WindowClient
  | [] => []
  | .focus c :: rest => c :: focused rest
  | _ :: rest => focused rest

/-- The paths given to `clients.openWindow`, in order. -/
def opened : List Call → List String
  | [] => []
  | .openWindow u :: rest => u :: opened rest
  | _ :: rest => opened rest

/-- The number of calls of `event.data.json()` and `event.data.text()`. -/
def accessorCalls : List Call → Nat
  | [] => 0
  | .dataJson :: rest => accessorCalls rest + 1
  | .dataText :: rest => accessorCalls rest + 1
  | _ :: rest => accessorCalls rest

/-- The number of calls of `event.notification.close()`. -/
def closeCalls : List Call → Nat
  | [] => 0
  | .notificationClose :: rest => closeCalls rest + 1
  | _ :: rest => closeCalls rest

/-- The queries given to `clients.matchAll`, each with the number of
`close()` calls made before it. -/
def matchAllAfterCloses : List Call → Nat → List (MatchAllOptions × Nat)
  | [], _ => []
  | .notificationClose :: rest, n => matchAllAfterCloses rest (n + 1)
  | .matchAll q :: rest, n => (q, n) :: matchAllAfterCloses rest n
  | _ :: rest, n => matchAllAfterCloses rest n

/-- Own-property test `Object.hasOwn(v, key)`; a primitive has no own property
of the names the listeners read. -/
def hasOwnProperty (v : JSVal) (key : String) : Bool :=
  match v with
  | .obj fields => (lookup key fields).isSome
  | _ => false

/-! ## Concrete events -/

/-- Payload text `{"notification":{"title":"","body":"hi"}}`. -/
def emptyTitleEvent : PushEvent :=
  ⟨some ⟨.ok (.obj [("notification", .obj [("title", .str ""), ("body", .str "hi")])]),
    some "\x7b\"notification\":\x7b\"title\":\"\",\"body\":\"hi\"\x7d\x7d"⟩⟩

/-- Payload text `null`: a valid JSON text, decoded to `null`. -/
def nullPayloadEvent : PushEvent :=
  ⟨some ⟨.ok .null, some "null"⟩⟩

/-- Payload text `{"notification":{"body":0}}`. -/
def zeroBodyEvent : PushEvent :=
  ⟨some ⟨.ok (.obj [("notification", .obj [("body", .num (.fin false 0 0))])]),
    some "\x7b\"notification\":\x7b\"body\":0\x7d\x7d"⟩⟩

/-- Payload text `{"notification":{"title":5}}`. -/
def numberTitleEvent : PushEvent :=
  ⟨some ⟨.ok (.obj [("notification", .obj [("title", .num (.fin false 5 0))])]),
    some "\x7b\"notification\":\x7b\"title\":5\x7d\x7d"⟩⟩

/-! ## Lemmas on the expressions of the push listener -/

theorem notificationField_obj (fields : List (String × JSVal)) (key : String) :
    notificationField (.obj fields) key =
      match lookup "notification" fields with
      | none => .ok .undefined
      | some n => if n.toBoolean then getProp n key else .ok n := by
  unfold notificationField
  cases h : lookup "notification" fields with
  | none => simp [getProp, h, bind, Except.bind, pure, Except.pure, JSVal.toBoolean]
  | some n =>
    by_cases hn : n.toBoolean = true <;>
      simp [getProp, h, bind, Except.bind, pure, Except.pure, hn]

theorem orElse_str (s d : String) :
    orElse (.str s) (.str d) = .str (if s = "" then d else s) := by
  by_cases hs : s = "" <;> simp [orElse, JSVal.toBoolean, hs]

theorem pushHandler_decoded (d : PushMessageData) (v title body : JSVal)
    (hjson : d.json = .ok v) (ht : resolveTitle v = .ok title) (hb : resolveBody v = .ok body) :
    pushHandler ⟨some d⟩ =
      ⟨[.dataJson, .showNotification title ⟨body, .str "/favicon.png"⟩,
        .waitUntil (.shown title ⟨body, .str "/favicon.png"⟩)], none⟩ := by
  simp [pushHandler, decodeData, hjson, ht, hb]

theorem resolveTitle_obj (fields : List (String × JSVal)) :
    resolveTitle (.obj fields) =
      match lookup "notification" fields with
      | none => .ok (.str "Notification")
      | some n =>
        if n.toBoolean then
          (getProp n "title").map (fun t => orElse t (.str "Notification"))
        else .ok (.str "Notification") := by
  unfold resolveTitle
  rw [notificationField_obj]
  cases h : lookup "notification" fields with
  | none => simp [bind, Except.bind, pure, Except.pure, orElse, JSVal.toBoolean]
  | some n =>
    by_cases hn : n.toBoolean = true
    · cases hp : getProp n "title" <;>
        simp [bind, Except.bind, pure, Except.pure, hn, hp, Except.map]
    · simp [bind, Except.bind, pure, Except.pure, hn, orElse]

theorem resolveBody_obj (fields : List (String × JSVal)) :
    resolveBody (.obj fields) =
      match lookup "notification" fields with
      | none => .ok (.str "")
      | some n =>
        if n.toBoolean then
          (getProp n "body").map (fun b => orElse b (.str ""))
        else .ok (.str "") := by
  unfold resolveBody
  rw [notificationField_obj]
  cases h : lookup "notification" fields with
  | none => simp [bind, Except.bind, pure, Except.pure, orElse, JSVal.toBoolean]
  | some n =>
    by_cases hn : n.toBoolean = true
    · cases hp : getProp n "body" <;>
        simp [bind, Except.bind, pure, Except.pure, hn, hp, Except.map]
    · simp [bind, Except.bind, pure, Except.pure, hn, orElse]

/-- A decoded value other than `null` and `undefined` without an own property
`notification` reads as `undefined` there, so both fallbacks apply. -/
theorem resolve_without_notification (v : JSVal) (h1 : v ≠ .null) (h2 : v ≠ .undefined)
    (h3 : hasOwnProperty v "notification" = false) :
    resolveTitle v = .ok (.str "Notification") ∧ resolveBody v = .ok (.str "") := by
  cases v with
  | undefined => exact absurd rfl h2
  | null => exact absurd rfl h1
  | obj fields =>
    have hl : lookup "notification" fields = none := by
      simpa [hasOwnProperty] using h3
    rw [resolveTitle_obj, resolveBody_obj, hl]
    exact ⟨rfl, rfl⟩
  | bool b => exact ⟨rfl, rfl⟩
  | num n => exact ⟨rfl, rfl⟩
  | str s => exact ⟨rfl, rfl⟩
  | arr items => exact ⟨rfl, rfl⟩

/-- Reading a property that a value does not own yields `undefined`, or throws
on `null` and `undefined`; either way the guarded field falls back. -/
theorem resolveTitle_title_missing (fields : List (String × JSVal)) (n : JSVal)
    (hn : lookup "notification" fields = some n) (ht : hasOwnProperty n "title" = false) :
    resolveTitle (.obj fields) = .ok (.str "Notification") := by
  rw [resolveTitle_obj, hn]
  cases n with
  | obj nfields =>
    have hl : lookup "title" nfields = none := by simpa [hasOwnProperty] using ht
    simp [JSVal.toBoolean, getProp, hl, Except.map, orElse]
  | bool b => cases b <;> simp [JSVal.toBoolean, getProp, Except.map, orElse]
  | num k =>
    by_cases hk : k.toBoolean = true <;>
      simp [JSVal.toBoolean, getProp, Except.map, orElse, hk]
  | str s =>
    by_cases hs : s = "" <;> simp [JSVal.toBoolean, getProp, Except.map, orElse, hs]
  | _ => simp [JSVal.toBoolean, getProp, Except.map, orElse]

theorem resolveBody_body_missing (fields : List (String × JSVal)) (n : JSVal)
    (hn : lookup "notification" fields = some n) (hb : hasOwnProperty n "body" = false) :
    resolveBody (.obj fields) = .ok (.str "") := by
  rw [resolveBody_obj, hn]
  cases n with
  | obj nfields =>
    have hl : lookup "body" nfields = none := by simpa [hasOwnProperty] using hb
    simp [JSVal.toBoolean, getProp, hl, Except.map, orElse]
  | bool b => cases b <;> simp [JSVal.toBoolean, getProp, Except.map, orElse]
  | num k =>
    by_cases hk : k.toBoolean = true <;>
      simp [JSVal.toBoolean, getProp, Except.map, orElse, hk]
  | str s =>
    by_cases hs : s = "" <;> simp [JSVal.toBoolean, getProp, Except.map, orElse, hs]
  | _ => simp [JSVal.toBoolean, getProp, Except.map, orElse]

/-- On a decoded object both expressions evaluate without a throw. -/
theorem resolve_obj_ok (fields : List (String × JSVal)) :
    (∃ title, resolveTitle (.obj fields) = .ok title) ∧
      (∃ body, resolveBody (.obj fields) = .ok body) := by
  rw [resolveTitle_obj, resolveBody_obj]
  cases hn : lookup "notification" fields with
  | none => exact ⟨⟨_, rfl⟩, ⟨_, rfl⟩⟩
  | some n =>
    cases n with
    | undefined => exact ⟨⟨_, rfl⟩, ⟨_, rfl⟩⟩
    | null => exact ⟨⟨_, rfl⟩, ⟨_, rfl⟩⟩
    | bool b => cases b <;> exact ⟨⟨_, rfl⟩, ⟨_, rfl⟩⟩
    | num k =>
      by_cases hk : k.toBoolean = true <;>
        simp [JSVal.toBoolean, getProp, Except.map, hk]
    | str s =>
      by_cases hs : s = "" <;> simp [JSVal.toBoolean, getProp, Except.map, hs]
    | arr items => exact ⟨⟨_, rfl⟩, ⟨_, rfl⟩⟩
    | obj nfields => exact ⟨⟨_, rfl⟩, ⟨_, rfl⟩⟩

/-! ## The push listener: theorems -/

/-- C1, as stated, fails: for the payload
`{"notification":{"title":"","body":"hi"}}` the listener shows the title
"Notification", which is not the payload's title (the empty string). -/
theorem push_empty_title_replaced :
    shownNotifications (pushHandler emptyTitleEvent).calls =
        [(.str "Notification", ⟨.str "hi", .str "/favicon.png"⟩)] ∧
      shownNotifications (pushHandler emptyTitleEvent).calls ≠
        [(.str "", ⟨.str "hi", .str "/favicon.png"⟩)] := by
  have h : shownNotifications (pushHandler emptyTitleEvent).calls =
      [(.str "Notification", ⟨.str "hi", .str "/favicon.png"⟩)] := by
    simp [emptyTitleEvent, pushHandler, decodeData, resolveTitle, resolveBody,
      notificationField, getProp, lookup, orElse, JSVal.toBoolean, bind, Except.bind, pure,
      Except.pure, shownNotifications]
  refine ⟨h, ?_⟩
  rw [h]
  simp

/-- C1, as amended: when the payload decodes to an object whose `notification`
object has a non-empty title string and a body string (any string, the empty
one included), the listener calls `showNotification` exactly once, with that
title and with that body. -/
theorem push_shows_payload_title_and_body (d : PushMessageData)
    (fields nfields : List (String × JSVal)) (t b : String)
    (hjson : d.json = .ok (.obj fields))
    (hn : lookup "notification" fields = some (.obj nfields))
    (ht : lookup "title" nfields = some (.str t))
    (hb : lookup "body" nfields = some (.str b))
    (hne : t ≠ "") :
    shownNotifications (pushHandler ⟨some d⟩).calls =
      [(.str t, ⟨.str b, .str "/favicon.png"⟩)] := by
  have h1 : resolveTitle (.obj fields) = .ok (.str t) := by
    rw [resolveTitle_obj, hn]
    simp [JSVal.toBoolean, getProp, ht, Except.map, orElse, hne]
  have h2 : resolveBody (.obj fields) = .ok (.str b) := by
    rw [resolveBody_obj, hn]
    simp only [JSVal.toBoolean, getProp, hb, Except.map, if_true, Option.getD_some, orElse_str]
    by_cases hb0 : b = "" <;> simp [hb0]
  rw [pushHandler_decoded d _ _ _ hjson h1 h2]
  rfl

/-- Witness of `push_shows_payload_title_and_body`: the payload
`{"notification":{"title":"Order Shipped","body":"Your order is on its way"}}`. -/
theorem push_shows_payload_title_and_body_witness :
    shownNotifications (pushHandler ⟨some ⟨.ok (.obj [("notification",
        .obj [("title", .str "Order Shipped"), ("body", .str "Your order is on its way")])]),
        none⟩⟩).calls =
      [(.str "Order Shipped", ⟨.str "Your order is on its way", .str "/favicon.png"⟩)] :=
  push_shows_payload_title_and_body _
    [("notification",
      .obj [("title", .str "Order Shipped"), ("body", .str "Your order is on its way")])]
    [("title", .str "Order Shipped"), ("body", .str "Your order is on its way")]
    "Order Shipped" "Your order is on its way" rfl
    (by simp [lookup]) (by simp [lookup]) (by simp [lookup]) (by decide)

/-- C2 fails on the code: for the payload text `null` the decode succeeds with
the value `null`, the read `data.notification` throws a `TypeError` outside
the `try` statement, and the listener ends without a `showNotification` call
and without a `waitUntil` call. -/
theorem push_null_payload_throws :
    (pushHandler nullPayloadEvent).threw = some .typeError ∧
      shownNotifications (pushHandler nullPayloadEvent).calls = [] ∧
      awaited (pushHandler nullPayloadEvent).calls = [] := by
  simp [nullPayloadEvent, pushHandler, decodeData, resolveTitle, notificationField, getProp,
    bind, Except.bind, shownNotifications, awaited]

/-- C3: when the JSON decode throws, the listener calls `showNotification`
exactly once, with the title "Notification" and with the body `text()`
returned, or the empty string when `text()` returned `null` or `undefined`. -/
theorem push_decode_failure_shows_text (d : PushMessageData) (e : JSError)
    (hjson : d.json = .error e) :
    shownNotifications (pushHandler ⟨some d⟩).calls =
      [(.str "Notification", ⟨.str (d.text.getD ""), .str "/favicon.png"⟩)] := by
  cases htext : d.text with
  | none =>
    simp [pushHandler, decodeData, hjson, htext, nullish, resolveTitle, resolveBody,
      notificationField, getProp, lookup, orElse, JSVal.toBoolean, bind, Except.bind, pure,
      Except.pure, shownNotifications]
  | some s =>
    by_cases hs : s = "" <;>
      simp [pushHandler, decodeData, hjson, htext, nullish, resolveTitle, resolveBody,
        notificationField, getProp, lookup, orElse, JSVal.toBoolean, bind, Except.bind, pure,
        Except.pure, shownNotifications, hs]

/-- Witness of `push_decode_failure_shows_text`: the plain text
`Server maintenance at 2am`, which is not JSON. -/
theorem push_decode_failure_shows_text_witness :
    shownNotifications
        (pushHandler ⟨some ⟨.error .syntaxError, some "Server maintenance at 2am"⟩⟩).calls =
      [(.str "Notification", ⟨.str "Server maintenance at 2am", .str "/favicon.png"⟩)] :=
  push_decode_failure_shows_text ⟨.error .syntaxError, some "Server maintenance at 2am"⟩
    .syntaxError rfl

/-- C4, as stated, fails: for the payload `{"notification":{"title":5}}` the
title is present and is not a non-empty string, and the listener shows that
number, not "Notification". -/
theorem push_number_title_shown :
    lookup "title" [("title", JSVal.num (.fin false 5 0))] = some (.num (.fin false 5 0)) ∧
      (shownNotifications (pushHandler numberTitleEvent).calls).map Prod.fst =
        [.num (.fin false 5 0)] ∧
      (shownNotifications (pushHandler numberTitleEvent).calls).map Prod.fst ≠
        [.str "Notification"] := by
  have h : (shownNotifications (pushHandler numberTitleEvent).calls).map Prod.fst =
      [.num (.fin false 5 0)] := by
    simp [numberTitleEvent, pushHandler, decodeData, resolveTitle, resolveBody,
      notificationField, getProp, lookup, orElse, JSVal.toBoolean, JSNum.toBoolean, bind,
      Except.bind, pure, Except.pure, shownNotifications]
  refine ⟨by simp [lookup], h, ?_⟩
  rw [h]
  simp

/-- C4, as amended: for a payload decoded to an object, the title shown is the
payload's `notification.title` when that field is present and is a non-empty
string or any other truthy value, and is "Notification" otherwise: when
`notification` is missing, when the title is missing, and when the title is
the empty string or any other falsy value. -/
theorem push_title_resolution (d : PushMessageData) (fields : List (String × JSVal))
    (hjson : d.json = .ok (.obj fields)) :
    (∀ nfields t, lookup "notification" fields = some (.obj nfields) →
        lookup "title" nfields = some (.str t) → t ≠ "" →
        (shownNotifications (pushHandler ⟨some d⟩).calls).map Prod.fst = [.str t]) ∧
      (lookup "notification" fields = none →
        (shownNotifications (pushHandler ⟨some d⟩).calls).map Prod.fst =
          [.str "Notification"]) ∧
      (∀ n, lookup "notification" fields = some n → hasOwnProperty n "title" = false →
        (shownNotifications (pushHandler ⟨some d⟩).calls).map Prod.fst =
          [.str "Notification"]) ∧
      (∀ nfields, lookup "notification" fields = some (.obj nfields) →
        lookup "title" nfields = some (.str "") →
        (shownNotifications (pushHandler ⟨some d⟩).calls).map Prod.fst =
          [.str "Notification"]) ∧
      (∀ nfields t, lookup "notification" fields = some (.obj nfields) →
        lookup "title" nfields = some t → t.toBoolean = true →
        (shownNotifications (pushHandler ⟨some d⟩).calls).map Prod.fst = [t]) ∧
      (∀ nfields t, lookup "notification" fields = some (.obj nfields) →
        lookup "title" nfields = some t → t.toBoolean = false →
        (shownNotifications (pushHandler ⟨some d⟩).calls).map Prod.fst =
          [.str "Notification"]) := by
  obtain ⟨body, hbody⟩ := (resolve_obj_ok fields).2
  have key : ∀ title, resolveTitle (.obj fields) = .ok title →
      (shownNotifications (pushHandler ⟨some d⟩).calls).map Prod.fst = [title] := by
    intro title h
    rw [pushHandler_decoded d _ _ _ hjson h hbody]
    rfl
  have hobj : ∀ nfields : List (String × JSVal), (JSVal.obj nfields).toBoolean = true :=
    fun _ => rfl
  refine ⟨?_, ?_, ?_, ?_, ?_, ?_⟩
  · intro nfields t hn ht hne
    apply key
    rw [resolveTitle_obj, hn]
    simp [JSVal.toBoolean, getProp, ht, Except.map, orElse, hne]
  · intro hn
    apply key
    rw [resolveTitle_obj, hn]
  · intro n hn ht
    exact key _ (resolveTitle_title_missing fields n hn ht)
  · intro nfields hn ht
    apply key
    rw [resolveTitle_obj, hn]
    simp [JSVal.toBoolean, getProp, ht, Except.map, orElse]
  · intro nfields t hn ht htrue
    apply key
    rw [resolveTitle_obj, hn]
    simp [hobj, getProp, ht, Except.map, orElse, htrue]
  · intro nfields t hn ht hfalse
    apply key
    rw [resolveTitle_obj, hn]
    simp [hobj, getProp, ht, Except.map, orElse, hfalse]

/-- Witness of `push_title_resolution`, at three payloads:
`{"notification":{"title":"Hi"}}` shows "Hi", `{"notification":{"title":true}}`
shows `true`, and `{"notification":{"title":null}}` shows "Notification". -/
theorem push_title_resolution_witness :
    (shownNotifications (pushHandler ⟨some ⟨.ok (.obj [("notification",
        .obj [("title", .str "Hi")])]), none⟩⟩).calls).map Prod.fst = [.str "Hi"] ∧
      (shownNotifications (pushHandler ⟨some ⟨.ok (.obj [("notification",
        .obj [("title", .bool true)])]), none⟩⟩).calls).map Prod.fst = [.bool true] ∧
      (shownNotifications (pushHandler ⟨some ⟨.ok (.obj [("notification",
        .obj [("title", .null)])]), none⟩⟩).calls).map Prod.fst = [.str "Notification"] :=
  ⟨(push_title_resolution ⟨.ok (.obj [("notification", .obj [("title", .str "Hi")])]), none⟩
      [("notification", .obj [("title", .str "Hi")])] rfl).1
      [("title", .str "Hi")] "Hi" (by simp [lookup]) (by simp [lookup]) (by decide),
    (push_title_resolution ⟨.ok (.obj [("notification", .obj [("title", .bool true)])]), none⟩
      [("notification", .obj [("title", .bool true)])] rfl).2.2.2.2.1
      [("title", .bool true)] (.bool true) (by simp [lookup]) (by simp [lookup]) rfl,
    (push_title_resolution ⟨.ok (.obj [("notification", .obj [("title", .null)])]), none⟩
      [("notification", .obj [("title", .null)])] rfl).2.2.2.2.2
      [("title", .null)] .null (by simp [lookup]) (by simp [lookup]) rfl⟩

/-- C5, as stated, fails: for the payload `{"notification":{"body":0}}` the
`body` field is present, and the listener passes the empty string, not the
payload's body. -/
theorem push_zero_body_replaced :
    lookup "body" [("body", JSVal.num (.fin false 0 0))] = some (.num (.fin false 0 0)) ∧
      (shownNotifications (pushHandler zeroBodyEvent).calls).map (fun p => p.2.body) =
        [.str ""] ∧
      (shownNotifications (pushHandler zeroBodyEvent).calls).map (fun p => p.2.body) ≠
        [.num (.fin false 0 0)] := by
  have h : (shownNotifications (pushHandler zeroBodyEvent).calls).map (fun p => p.2.body) =
      [.str ""] := by
    simp [zeroBodyEvent, pushHandler, decodeData, resolveTitle, resolveBody,
      notificationField, getProp, lookup, orElse, JSVal.toBoolean, JSNum.toBoolean, bind,
      Except.bind, pure, Except.pure, shownNotifications]
  refine ⟨by simp [lookup], h, ?_⟩
  rw [h]
  simp

/-- C5, as amended: for a payload decoded to an object, `options.body` is the
payload's `notification.body` when that field is present and is a string (the
empty one included) or any other truthy value, and is the empty string when
`notification` is missing and when the body is missing. -/
theorem push_body_resolution (d : PushMessageData) (fields : List (String × JSVal))
    (hjson : d.json = .ok (.obj fields)) :
    (∀ nfields b, lookup "notification" fields = some (.obj nfields) →
        lookup "body" nfields = some b → (b.toBoolean = true ∨ ∃ s, b = .str s) →
        (shownNotifications (pushHandler ⟨some d⟩).calls).map (fun p => p.2.body) = [b]) ∧
      (lookup "notification" fields = none →
        (shownNotifications (pushHandler ⟨some d⟩).calls).map (fun p => p.2.body) =
          [.str ""]) ∧
      (∀ n, lookup "notification" fields = some n → hasOwnProperty n "body" = false →
        (shownNotifications (pushHandler ⟨some d⟩).calls).map (fun p => p.2.body) =
          [.str ""]) := by
  obtain ⟨title, htitle⟩ := (resolve_obj_ok fields).1
  have key : ∀ body, resolveBody (.obj fields) = .ok body →
      (shownNotifications (pushHandler ⟨some d⟩).calls).map (fun p => p.2.body) = [body] := by
    intro body h
    rw [pushHandler_decoded d _ _ _ hjson htitle h]
    rfl
  refine ⟨?_, ?_, ?_⟩
  · intro nfields b hn hb hcase
    apply key
    rw [resolveBody_obj, hn]
    rcases hcase with htrue | ⟨s, rfl⟩
    · have hobj : (JSVal.obj nfields).toBoolean = true := rfl
      simp [hobj, getProp, hb, Except.map, orElse, htrue]
    · by_cases hs : s = "" <;> simp [JSVal.toBoolean, getProp, hb, Except.map, orElse, hs]
  · intro hn
    apply key
    rw [resolveBody_obj, hn]
  · intro n hn hb
    exact key _ (resolveBody_body_missing fields n hn hb)

/-- Witness of `push_body_resolution`, at three payloads:
`{"notification":{"body":"hi"}}` passes "hi", `{"notification":{"body":true}}`
passes `true`, and `{"notification":{"title":"Hi"}}`, without body, passes "". -/
theorem push_body_resolution_witness :
    (shownNotifications (pushHandler ⟨some ⟨.ok (.obj [("notification",
        .obj [("body", .str "hi")])]), none⟩⟩).calls).map (fun p => p.2.body) = [.str "hi"] ∧
      (shownNotifications (pushHandler ⟨some ⟨.ok (.obj [("notification",
        .obj [("body", .bool true)])]), none⟩⟩).calls).map (fun p => p.2.body) =
          [.bool true] ∧
      (shownNotifications (pushHandler ⟨some ⟨.ok (.obj [("notification",
        .obj [("title", .str "Hi")])]), none⟩⟩).calls).map (fun p => p.2.body) = [.str ""] :=
  ⟨(push_body_resolution ⟨.ok (.obj [("notification", .obj [("body", .str "hi")])]), none⟩
      [("notification", .obj [("body", .str "hi")])] rfl).1
      [("body", .str "hi")] (.str "hi") (by simp [lookup]) (by simp [lookup])
      (Or.inr ⟨"hi", rfl⟩),
    (push_body_resolution ⟨.ok (.obj [("notification", .obj [("body", .bool true)])]), none⟩
      [("notification", .obj [("body", .bool true)])] rfl).1
      [("body", .bool true)] (.bool true) (by simp [lookup]) (by simp [lookup])
      (Or.inl rfl),
    (push_body_resolution ⟨.ok (.obj [("notification", .obj [("title", .str "Hi")])]), none⟩
      [("notification", .obj [("title", .str "Hi")])] rfl).2.2
      (.obj [("title", .str "Hi")]) (by simp [lookup]) (by simp [hasOwnProperty, lookup])⟩

/-- C6: for a push event without payload the listener calls neither `json()`
nor `text()` and calls `showNotification` once, with the title "Notification",
the body "" and the icon "/favicon.png". -/
theorem push_absent_payload :
    accessorCalls (pushHandler ⟨none⟩).calls = 0 ∧
      shownNotifications (pushHandler ⟨none⟩).calls =
        [(.str "Notification", ⟨.str "", .str "/favicon.png"⟩)] := by
  simp [pushHandler, decodeData, resolveTitle, resolveBody, notificationField, getProp, lookup,
    orElse, JSVal.toBoolean, bind, Except.bind, pure, Except.pure, shownNotifications,
    accessorCalls]

/-- C10: when the payload decodes to a value other than `null` that has no
`notification` property, the listener shows the title "Notification" and the
body "", whatever the text of the payload is, and does not call `text()`. -/
theorem push_decoded_without_notification (d : PushMessageData) (v : JSVal)
    (hjson : d.json = .ok v) (hnull : v ≠ .null) (hundef : v ≠ .undefined)
    (hprop : hasOwnProperty v "notification" = false) :
    (pushHandler ⟨some d⟩).calls =
      [.dataJson,
        .showNotification (.str "Notification") ⟨.str "", .str "/favicon.png"⟩,
        .waitUntil (.shown (.str "Notification") ⟨.str "", .str "/favicon.png"⟩)] := by
  obtain ⟨ht, hb⟩ := resolve_without_notification v hnull hundef hprop
  rw [pushHandler_decoded d _ _ _ hjson ht hb]

/-- Witness of `push_decoded_without_notification`: the payload text
`"Server maintenance at 2am"`, quoted, is valid JSON for a string. -/
theorem push_decoded_without_notification_witness :
    (pushHandler ⟨some ⟨.ok (.str "Server maintenance at 2am"),
        some "\"Server maintenance at 2am\""⟩⟩).calls =
      [.dataJson,
        .showNotification (.str "Notification") ⟨.str "", .str "/favicon.png"⟩,
        .waitUntil (.shown (.str "Notification") ⟨.str "", .str "/favicon.png"⟩)] :=
  push_decoded_without_notification
    ⟨.ok (.str "Server maintenance at 2am"), some "\"Server maintenance at 2am\""⟩
    (.str "Server maintenance at 2am") rfl (by simp) (by simp) rfl

/-- Apart from a payload decoded to `null` (or `undefined`, which `JSON.parse`
never returns), every push event is handled without a throw, with one
`showNotification` call whose promise is the one argument of `waitUntil`. -/
theorem pushHandler_completes (event : PushEvent)
    (h : ∀ d, event.data = some d → d.json ≠ .ok .null ∧ d.json ≠ .ok .undefined) :
    (pushHandler event).threw = none ∧
      ∃ title options, shownNotifications (pushHandler event).calls = [(title, options)] ∧
        awaited (pushHandler event).calls = [.shown title options] := by
  obtain ⟨data⟩ := event
  cases data with
  | none =>
    refine ⟨rfl, .str "Notification", ⟨.str "", .str "/favicon.png"⟩, ?_, ?_⟩ <;>
      simp [pushHandler, decodeData, resolveTitle, resolveBody, notificationField, getProp,
        lookup, orElse, JSVal.toBoolean, bind, Except.bind, pure, Except.pure,
        shownNotifications, awaited]
  | some d =>
    obtain ⟨h1, h2⟩ := h d rfl
    cases hjson : d.json with
    | error e =>
      have hrun : pushHandler ⟨some d⟩ =
          ⟨[.dataJson, .dataText,
            .showNotification (.str "Notification") ⟨.str (d.text.getD ""), .str "/favicon.png"⟩,
            .waitUntil (.shown (.str "Notification")
              ⟨.str (d.text.getD ""), .str "/favicon.png"⟩)], none⟩ := by
        cases htext : d.text with
        | none =>
          simp [pushHandler, decodeData, hjson, htext, nullish, resolveTitle, resolveBody,
            notificationField, getProp, lookup, orElse, JSVal.toBoolean, bind, Except.bind,
            pure, Except.pure]
        | some s =>
          by_cases hs : s = "" <;>
            simp [pushHandler, decodeData, hjson, htext, nullish, resolveTitle, resolveBody,
              notificationField, getProp, lookup, orElse, JSVal.toBoolean, bind, Except.bind,
              pure, Except.pure, hs]
      rw [hrun]
      exact ⟨rfl, _, _, rfl, rfl⟩
    | ok v =>
      have hres : (∃ title, resolveTitle v = .ok title) ∧ (∃ body, resolveBody v = .ok body) := by
        cases v with
        | undefined => exact absurd hjson h2
        | null => exact absurd hjson h1
        | obj fields => exact resolve_obj_ok fields
        | bool b => exact ⟨⟨_, rfl⟩, ⟨_, rfl⟩⟩
        | num n => exact ⟨⟨_, rfl⟩, ⟨_, rfl⟩⟩
        | str s => exact ⟨⟨_, rfl⟩, ⟨_, rfl⟩⟩
        | arr items => exact ⟨⟨_, rfl⟩, ⟨_, rfl⟩⟩
      obtain ⟨⟨title, ht⟩, ⟨body, hb⟩⟩ := hres
      rw [pushHandler_decoded d _ _ _ hjson ht hb]
      exact ⟨rfl, _, _, rfl, rfl⟩

/-! ## The notification-click listener: theorems -/

/-- C7: when `clients.matchAll` resolves to a non-empty list, the listener
calls `focus` exactly once, on the first client of the list, and does not call
`clients.openWindow`. -/
theorem click_focuses_first_client (clientList : List WindowClient) (h : clientList ≠ []) :
    focused (clickHandler (some clientList)).calls = [clientList.head h] ∧
      opened (clickHandler (some clientList)).calls = [] := by
  cases clientList with
  | nil => exact absurd rfl h
  | cons c rest =>
    simp [clickHandler, onClientList, focused, opened]

/-- Witness of `click_focuses_first_client`: two open windows. -/
theorem click_focuses_first_client_witness :
    focused (clickHandler (some [⟨1⟩, ⟨2⟩])).calls = [⟨1⟩] ∧
      opened (clickHandler (some [⟨1⟩, ⟨2⟩])).calls = [] :=
  click_focuses_first_client [⟨1⟩, ⟨2⟩] (by simp)

/-- C8: when `clients.matchAll` resolves to the empty list, the listener calls
`clients.openWindow` exactly once, with the path "/", and calls `focus` on no
client. -/
theorem click_opens_root_window :
    opened (clickHandler (some [])).calls = ["/"] ∧
      focused (clickHandler (some [])).calls = [] := by
  simp [clickHandler, onClientList, focused, opened]

/-- C9: whatever `clients.matchAll` resolves to, the listener calls
`event.notification.close()` exactly once, as its first call, and its one
`matchAll` call, with `type` "window" and `includeUncontrolled` true, comes
after that `close()`. -/
theorem click_closes_once_before_matchAll (matched : Option (List WindowClient)) :
    closeCalls (clickHandler matched).calls = 1 ∧
      (clickHandler matched).calls.head? = some .notificationClose ∧
      matchAllAfterCloses (clickHandler matched).calls 0 = [(⟨"window", true⟩, 1)] := by
  cases matched with
  | none => simp [clickHandler, closeCalls, matchAllAfterCloses]
  | some clientList =>
    cases clientList with
    | nil => simp [clickHandler, onClientList, closeCalls, matchAllAfterCloses]
    | cons c rest => simp [clickHandler, onClientList, closeCalls, matchAllAfterCloses]

end ServiceWorker
